import Mathlib

/-
Verification of the Docker maintenance service
(`src/service/docker_maintenance_service.py`, the current variant of the
repository; `src/old/docker_maintenance_service.py`,
`src/docker_maintenance_service.py` and
`src/script/docker_maintenance_script.py` are earlier variants of the same
orchestrator).

The Python code is shallowly embedded as computations in a monad
`M α = ExtEnv → St → Out α`, where `ExtEnv` fixes the behaviour of every
external interaction (process spawns, `ShellExecute`, `tasklist`, file
existence checks), `St` carries the wall clock (integer seconds) and a
global invocation counter, and `Out` packages a Python-style result
(normal return or raised exception), the final state and the list of
observable events (log lines, spawned commands, sleeps) produced by the
computation.

The scheduler (`SvcDoRun` / `main` of the service class) is modelled
separately with an explicit stop-signal interleaving: the `SvcStop`
handler, which runs on the service-control thread, flips `is_running`
and sets the auto-reset stop event; the loop observes this either at its
`while is_running` check or at its `WaitForSingleObject` wait.  The three
observation points (before the check, during the wait, during a
maintenance run) cover every interleaving the Python loop can
distinguish, because the pipeline code never reads either flag.
-/

namespace DockerSvc

/-- Python exception values raised by the embedded code: `timeoutEx` models
`subprocess.TimeoutExpired`, `err` models every other `Exception(msg)`. -/
inductive PyExn where
  | timeoutEx
  | err (msg : String)
  deriving DecidableEq, Repr

/-- `str(e)` of an exception, as used in the log messages. -/
def pyMsg : PyExn → String
  | .timeoutEx => "TimeoutExpired"
  | .err m => m

/-- Result of one OS-level process spawn (`subprocess.run`). -/
inductive SpawnResult where
  | completed (exitCode : Nat) (stdout stderr : String)
  | timedOut
  | launchFailed (msg : String)
  deriving DecidableEq, Repr

/-- Observable events of a run: log lines, process spawns (argv lists),
shell-string spawns, `ShellExecute` launches, sleeps, the entry of
`run_maintenance_tasks`, the scheduler wait, and the service start-up
file operations. -/
inductive Event where
  | log (msg : String)
  | spawn (argv : List String)
  | shellCmd (line : String)
  | shellExec (path : String)
  | sleep (seconds : Nat)
  | enterMaintenance
  | waitFor (seconds : Nat)
  | clearLog
  | startupFile
  | reportRunning
  deriving DecidableEq, Repr

/-- Behaviour of the external world, indexed by a global invocation
counter so repeated invocations of the same command may behave
differently. -/
structure ExtEnv where
  spawnResult : Nat → List String → SpawnResult
  spawnDuration : Nat → Nat
  shellExecuteOk : Nat → Bool
  shellRun : Nat → Except String String
  pathExists : String → Bool
  isFile : String → Bool

/-- Mutable state threaded through the embedded code. -/
structure St where
  clock : Nat
  calls : Nat
  deriving DecidableEq, Repr

/-- Outcome of running an embedded computation: a Python-style result,
the final state, and the events produced (in order). -/
structure Out (α : Type) where
  res : Except PyExn α
  st : St
  trace : List Event
  deriving Repr

/-- The embedding monad. -/
def M (α : Type) : Type := ExtEnv → St → Out α

def mPure {α : Type} (a : α) : M α := fun _ st => ⟨.ok a, st, []⟩

def mBind {α β : Type} (m : M α) (k : α → M β) : M β := fun env st =>
  match m env st with
  | ⟨.ok a, st1, t1⟩ =>
    let o := k a env st1
    ⟨o.res, o.st, t1 ++ o.trace⟩
  | ⟨.error e, st1, t1⟩ => ⟨.error e, st1, t1⟩

instance : Monad M where
  pure := mPure
  bind := mBind

theorem bind_def {α β : Type} (m : M α) (k : α → M β) :
    m >>= k = mBind m k := rfl

theorem pure_def {α : Type} (a : α) : (pure a : M α) = mPure a := rfl

/-- Python `try ... except Exception`: run `m`; on a raised exception run
the handler on the state reached at the raise. -/
def tryPy {α : Type} (m : M α) (h : PyExn → M α) : M α := fun env st =>
  match m env st with
  | ⟨.error e, st1, t1⟩ =>
    let o := h e env st1
    ⟨o.res, o.st, t1 ++ o.trace⟩
  | ⟨.ok a, st1, t1⟩ => ⟨.ok a, st1, t1⟩

/-- Emit one observable event. -/
def emit (e : Event) : M Unit := fun _ st => ⟨.ok (), st, [e]⟩

/-- `raise` an exception. -/
def throwPy {α : Type} (e : PyExn) : M α := fun _ st => ⟨.error e, st, []⟩

/-- `time.sleep(n)`: advances the clock. -/
def sleepM (n : Nat) : M Unit := fun _ st =>
  ⟨.ok (), { st with clock := st.clock + n }, [.sleep n]⟩

/-- `subprocess.run(argv, capture_output=True, text=True, timeout=...)`:
returns `(returncode, stdout, stderr)`, raises `TimeoutExpired` on
timeout and an `OSError`-style exception on launch failure. -/
def subprocessRun (argv : List String) : M (Nat × String × String) := fun env st =>
  let st1 : St := { st with calls := st.calls + 1, clock := st.clock + env.spawnDuration st.calls }
  match env.spawnResult st.calls argv with
  | .completed code out err => ⟨.ok (code, out, err), st1, [.spawn argv]⟩
  | .timedOut => ⟨.error .timeoutEx, st1, [.spawn argv]⟩
  | .launchFailed msg => ⟨.error (.err msg), st1, [.spawn argv]⟩

/-- `win32api.ShellExecute(0, "open", path, None, None, SW_SHOWNORMAL)`. -/
def shellExecuteM (path : String) : M Unit := fun env st =>
  let st1 : St := { st with calls := st.calls + 1 }
  if env.shellExecuteOk st.calls then ⟨.ok (), st1, [.shellExec path]⟩
  else ⟨.error (.err "ShellExecute failed"), st1, [.shellExec path]⟩

/-- `subprocess.run(line, shell=True, capture_output=True, text=True)`
(no timeout argument): yields stdout, or raises on launch failure. -/
def shellRunM (line : String) : M String := fun env st =>
  let st1 : St := { st with calls := st.calls + 1, clock := st.clock + env.spawnDuration st.calls }
  match env.shellRun st.calls with
  | .ok out => ⟨.ok out, st1, [.shellCmd line]⟩
  | .error msg => ⟨.error (.err msg), st1, [.shellCmd line]⟩

/-- `os.path.exists(p)`. -/
def osPathExists (p : String) : M Bool := fun env st => ⟨.ok (env.pathExists p), st, []⟩

/-- `os.path.isfile(p)`. -/
def osPathIsFile (p : String) : M Bool := fun env st => ⟨.ok (env.isFile p), st, []⟩

/-- Characters stripped by Python `str.strip()`. -/
def pyWs : List Char := [' ', '\t', '\n', '\r', '\x0b', '\x0c']

/-- Python `str.strip()`. -/
def pyStrip (s : String) : String :=
  String.mk (((s.toList.dropWhile (fun c => pyWs.contains c)).reverse.dropWhile
      (fun c => pyWs.contains c)).reverse)

/-- Python `str.splitlines()` for the line terminators that occur in
captured command output (`\n`, `\r`, `\r\n`): no trailing empty line is
produced for a trailing terminator. -/
def pySplitlinesAux : List Char → List Char → List String
  | [], acc => if acc.isEmpty then [] else [String.mk acc.reverse]
  | '\r' :: '\n' :: rest, acc => String.mk acc.reverse :: pySplitlinesAux rest []
  | '\r' :: rest, acc => String.mk acc.reverse :: pySplitlinesAux rest []
  | '\n' :: rest, acc => String.mk acc.reverse :: pySplitlinesAux rest []
  | c :: rest, acc => pySplitlinesAux rest (c :: acc)

def pySplitlines (s : String) : List String := pySplitlinesAux s.toList []

/-- Python `needle in hay` on strings. -/
def pyInStr (needle hay : String) : Bool :=
  (hay.toList.tails).any (fun t => needle.toList.isPrefixOf t)

/-- The container counting of `get_docker_container_count`:
`len([line.strip() for line in stdout.strip().splitlines() if line.strip()])`. -/
def countContainers (stdout : String) : Nat :=
  (((pySplitlines (pyStrip stdout)).map pyStrip).filter (fun l => !(l == ""))).length

/-- Python `str.lower()` (character-wise lowering, as used on the
program names compared by `run_command`). -/
def pyLower (s : String) : String := String.mk (s.data.map Char.toLower)

/-- Invocation list built by `run_command`: a shell-style interpreter
target (`powershell`, compared case-insensitively) gets the argument
text as one command string behind `-Command`; every other program gets
the whole argument text as a single extra list element. -/
def buildCmd (command args : String) : List String :=
  if pyLower command == "powershell" then [command, "-Command", args]
  else [command, args]

def splitWsAux : List Char → List Char → List String
  | [], acc => [String.mk acc.reverse]
  | ' ' :: rest, acc => String.mk acc.reverse :: splitWsAux rest []
  | c :: rest, acc => splitWsAux rest (c :: acc)

/-- Reading of the claim phrase "a discrete argument list (each argument
a separate list element)": the argument text split at spaces, each
argument becoming its own list element.  This follows the claim wording,
not the source; it is compared against `buildCmd`. -/
def specSplitArgs (s : String) : List String :=
  (splitWsAux s.data []).filter (fun t => t != "")

/-- `run_command(self, command, args)` of the service class: logs the
invocation, spawns `buildCmd command args` with a 30s timeout, converts a
timeout into a generic exception, raises on a non-zero exit code, and
otherwise logs and returns the stripped stdout. -/
def run_command (command args : String) : M String := do
  emit (.log ("DEBUG: Executing command: " ++ command ++ " " ++ args))
  let r ← tryPy (subprocessRun (buildCmd command args))
    (fun e =>
      match e with
      | .timeoutEx => do
        emit (.log ("Command timeout expired: " ++ command ++ " " ++ args))
        throwPy (.err ("Command timeout expired: " ++ command ++ " " ++ args))
      | .err m => throwPy (.err m))
  if r.1 ≠ 0 then do
    emit (.log ("Command failed: " ++ command ++ " " ++ args ++ ". Error: " ++
      r.2.2 ++ " (Stdout: " ++ r.2.1 ++ ")"))
    throwPy (.err ("Command failed: " ++ command ++ " " ++ args ++ ". Error: " ++
      r.2.2 ++ " (Stdout: " ++ r.2.1 ++ ")"))
  else do
    emit (.log ("DEBUG: Command output: " ++ pyStrip r.2.1))
    pure (pyStrip r.2.1)

/-- `check_docker_running`: a `docker info` probe; any failure is logged
and reported as `false`, never re-raised. -/
def check_docker_running : M Bool :=
  tryPy (do
    let _ ← run_command "docker" "info"
    pure true)
  (fun e => do
    emit (.log ("Docker daemon is not running: " ++ pyMsg e))
    pure false)

/-- `get_docker_container_count`: spawns `docker ps -a -q` directly,
counts the non-empty lines of stdout (the exit code is never read), and
converts any exception into a logged `0`. -/
def get_docker_container_count : M Nat :=
  tryPy (do
    let r ← subprocessRun ["docker", "ps", "-a", "-q"]
    pure (countContainers r.2.1))
  (fun e => do
    emit (.log ("Failed to get docker container count: " ++ pyMsg e))
    pure 0)

/-- `kill_process`: spawns `taskkill /F /IM name` directly (a timeout or
launch failure propagates to the caller). -/
def kill_process (process_name : String) : M Unit := do
  emit (.log ("DEBUG: Killing processes named: " ++ process_name))
  let r ← subprocessRun ["taskkill", "/F", "/IM", process_name]
  emit (.log ("Taskkill output: " ++ pyStrip r.2.1))

/-- The `for proc_name in [...]` loop of `kill_docker_processes`. -/
def killEach : List String → M Unit
  | [] => mPure ()
  | p :: rest => do
    tryPy (do
      kill_process p
      emit (.log ("Killed " ++ p ++ " processes if any.")))
     (fun e => emit (.log ("Failed to kill process " ++ p ++ ": " ++ pyMsg e)))
    killEach rest

/-- `kill_docker_processes`: best-effort kill of the daemon and desktop
processes; a per-process failure is logged and does not abort the other. -/
def kill_docker_processes : M Unit := killEach ["docker.exe", "Docker Desktop.exe"]

/-- The hardcoded VHDX candidate path checked by `get_docker_vhd_path`. -/
def vhd_target_path : String :=
  "C:\\Users\\david\\AppData\\Local\\Docker\\wsl\\disk\\docker_data.vhdx"

/-- `get_docker_vhd_path`: checks the single hardcoded candidate and
returns it as a singleton list when it is a file, else the empty list. -/
def get_docker_vhd_path : M (List String) := do
  emit (.log ("DEBUG: Checking for Docker VHD at: " ++ vhd_target_path))
  let isf ← osPathIsFile vhd_target_path
  if isf then do
    emit (.log ("DEBUG: Found Docker VHD file at: " ++ vhd_target_path))
    pure [vhd_target_path]
  else do
    emit (.log ("DEBUG: Docker VHD file not found at: " ++ vhd_target_path))
    pure []

def docker_desktop_path : String := "C:\\Program Files\\Docker\\Docker\\Docker Desktop.exe"

def tasklistLine : String := "tasklist /FI \"IMAGENAME eq Docker Desktop.exe\""

/-- The `while attempt < max_retries` loop of `start_docker_desktop`,
with `fuel = max_retries - attempt`: launch via `ShellExecute` (its own
failure only logged), wait `retry_delay` seconds, check the process list
via `tasklist`, verify the daemon with `docker info` when visible;
otherwise double the delay, wait it out and retry. -/
def startLoop (executable_path : String) : Nat → Nat → Nat → M Unit
  | 0, _, _ => emit (.log "ERROR: Failed to start Docker Desktop after maximum retries.")
  | fuel + 1, attempt, retry_delay => do
    tryPy (do
      shellExecuteM executable_path
      emit (.log ("DEBUG: ShellExecute() succeeded (Attempt " ++ toString (attempt + 1) ++ ").")))
     (fun e =>
      emit (.log ("ERROR: ShellExecute() failed on attempt " ++ toString (attempt + 1) ++
        ": " ++ pyMsg e)))
    sleepM retry_delay
    let out ← shellRunM tasklistLine
    let ok ←
      if pyInStr "Docker Desktop.exe" out then do
        emit (.log ("DEBUG: Docker Desktop is running (Attempt " ++ toString (attempt + 1) ++ ")."))
        tryPy (do
          let _ ← run_command "docker" "info"
          emit (.log "Docker daemon is responsive after startup.")
          pure true)
         (fun e => do
          emit (.log ("ERROR: Docker daemon not responsive: " ++ pyMsg e))
          pure false)
      else do
        emit (.log ("ERROR: Docker Desktop does not appear to be running (Attempt " ++
          toString (attempt + 1) ++ ")."))
        pure false
    if ok then pure ()
    else do
      emit (.log ("DEBUG: Retrying Docker Desktop launch in " ++ toString (retry_delay * 2) ++
        " seconds..."))
      sleepM (retry_delay * 2)
      startLoop executable_path fuel (attempt + 1) (retry_delay * 2)

/-- `start_docker_desktop`: validates the executable path first and gives
up immediately when it is missing; otherwise runs the retry loop with
`max_retries = 3`, initial `retry_delay = 5`. -/
def start_docker_desktop (executable_path : String) : M Unit := do
  emit (.log ("DEBUG: Attempting to start Docker Desktop: " ++ executable_path))
  let ex ← osPathExists executable_path
  if !ex then
    emit (.log ("ERROR: Docker Desktop executable not found: " ++ executable_path))
  else
    startLoop executable_path 3 0 5

/-- The wall clock never decreases across an embedded computation. -/
def ClockMono {α : Type} (m : M α) : Prop := ∀ env st, st.clock ≤ (m env st).st.clock

theorem clockMono_emit (e : Event) : ClockMono (emit e) := fun _ _ => le_refl _

theorem clockMono_mPure {α : Type} (a : α) : ClockMono (mPure a) := fun _ _ => le_refl _

theorem clockMono_throwPy {α : Type} (e : PyExn) : ClockMono (throwPy e : M α) :=
  fun _ _ => le_refl _

theorem clockMono_sleepM (n : Nat) : ClockMono (sleepM n) := by
  intro env st
  simp [sleepM]

theorem clockMono_subprocessRun (argv : List String) : ClockMono (subprocessRun argv) := by
  intro env st
  unfold subprocessRun
  cases env.spawnResult st.calls argv <;> simp

theorem clockMono_shellExecuteM (p : String) : ClockMono (shellExecuteM p) := by
  intro env st
  unfold shellExecuteM
  by_cases h : env.shellExecuteOk st.calls <;> simp [h]

theorem clockMono_shellRunM (line : String) : ClockMono (shellRunM line) := by
  intro env st
  unfold shellRunM
  cases env.shellRun st.calls <;> simp

theorem clockMono_osPathExists (p : String) : ClockMono (osPathExists p) :=
  fun _ _ => le_refl _

theorem clockMono_osPathIsFile (p : String) : ClockMono (osPathIsFile p) :=
  fun _ _ => le_refl _

theorem clockMono_mBind {α β : Type} {m : M α} {k : α → M β}
    (hm : ClockMono m) (hk : ∀ a, ClockMono (k a)) : ClockMono (mBind m k) := by
  intro env st
  have h1 := hm env st
  show st.clock ≤ (mBind m k env st).st.clock
  unfold mBind
  cases ho : m env st with
  | mk res st1 t1 =>
    rw [ho] at h1
    cases res with
    | ok a => exact le_trans h1 (hk a env st1)
    | error e => exact h1

theorem clockMono_tryPy {α : Type} {m : M α} {h : PyExn → M α}
    (hm : ClockMono m) (hh : ∀ e, ClockMono (h e)) : ClockMono (tryPy m h) := by
  intro env st
  have h1 := hm env st
  show st.clock ≤ (tryPy m h env st).st.clock
  unfold tryPy
  cases ho : m env st with
  | mk res st1 t1 =>
    rw [ho] at h1
    cases res with
    | ok a => exact h1
    | error e => exact le_trans h1 (hh e env st1)

theorem clockMono_ite {α : Type} {c : Prop} [Decidable c] {m1 m2 : M α}
    (h1 : ClockMono m1) (h2 : ClockMono m2) : ClockMono (if c then m1 else m2) := by
  split <;> assumption

theorem clockMono_run_command (c a : String) : ClockMono (run_command c a) := by
  unfold run_command
  simp only [bind_def]
  apply clockMono_mBind (clockMono_emit _)
  intro _
  apply clockMono_mBind
  · apply clockMono_tryPy (clockMono_subprocessRun _)
    intro e
    cases e
    · simp only [bind_def]
      exact clockMono_mBind (clockMono_emit _) (fun _ => clockMono_throwPy _)
    · exact clockMono_throwPy _
  · intro r
    apply clockMono_ite
    · exact clockMono_mBind (clockMono_emit _) (fun _ => clockMono_throwPy _)
    · simp only [pure_def]
      exact clockMono_mBind (clockMono_emit _) (fun _ => clockMono_mPure _)

/-- The `while True` polling loop after `Start-Service WslService`:
query `(Get-Service WslService).Status` (a query failure is logged and
breaks the loop), stop when the stripped status is `Running`, stop when
more than 60 seconds have elapsed since `start`, otherwise sleep one
second and poll again.  Terminates because each iteration advances the
clock by at least the one-second sleep. -/
def wslPollLoop (start : Nat) (env : ExtEnv) (st : St) : Out Unit :=
  let o := run_command "powershell" "(Get-Service WslService).Status" env st
  match o.res with
  | .error e =>
    let o2 := emit (.log ("ERROR: Failed to query WslService status: " ++ pyMsg e)) env o.st
    ⟨o2.res, o2.st, o.trace ++ o2.trace⟩
  | .ok statusRaw =>
    if pyStrip statusRaw == "Running" then
      let o2 := emit (.log "WslService is now running.") env o.st
      ⟨o2.res, o2.st, o.trace ++ o2.trace⟩
    else if o.st.clock - start > 60 then
      let o2 := emit (.log "ERROR: Timeout waiting for WslService to start after 60 seconds.") env o.st
      ⟨o2.res, o2.st, o.trace ++ o2.trace⟩
    else
      let o1 := sleepM 1 env o.st
      let o2 := wslPollLoop start env o1.st
      ⟨o2.res, o2.st, o.trace ++ o1.trace ++ o2.trace⟩
termination_by start + 61 - st.clock
decreasing_by
  have hmono := clockMono_run_command "powershell" "(Get-Service WslService).Status" env st
  have ho : o.st.clock = (run_command "powershell" "(Get-Service WslService).Status" env st).st.clock := rfl
  simp only [sleepM]
  omega

/-- `start_time = time.time()` followed by the polling loop. -/
def wslWaitLoop : M Unit := fun env st => wslPollLoop st.clock env st

def prune_cmd_args : String := "docker system prune -a --volumes --force"

/-- The `Optimize-VHD` `for path in vhd_paths` loop of
`run_maintenance_tasks`. -/
def optimizeEach : List String → M Unit
  | [] => mPure ()
  | path :: rest => do
    emit (.log ("Optimizing VHD: " ++ path))
    let _ ← run_command "powershell" ("Optimize-VHD -Path \"" ++ path ++ "\" -Mode Full")
    emit (.log ("Docker VHD optimization executed for: " ++ path))
    optimizeEach rest

/-- The body of `run_maintenance_tasks` from the prune step on: count,
prune (a failure raises out of this chain), count again, kill processes,
stop the WSL service, optimize the VHD file(s), restart the WSL service
and wait for convergence, check WSL, restart Docker Desktop, and run the
post-flight daemon check with one extra kill-and-relaunch recovery. -/
def pruneAndLater : M Unit := do
  let container_count_before ← get_docker_container_count
  emit (.log ("Docker container count before prune: " ++ toString container_count_before))
  let prune_output ← run_command "powershell" prune_cmd_args
  emit (.log ("Docker prune output: " ++ prune_output))
  let container_count_after ← get_docker_container_count
  emit (.log ("Docker container count after prune: " ++ toString container_count_after))
  emit (.log ("Removed " ++ toString ((container_count_before : Int) - (container_count_after : Int)) ++
    " docker containers during prune."))
  kill_docker_processes
  emit (.log "Stopping WSL service (WslService).")
  let _ ← run_command "powershell" "Stop-Service WslService -Force"
  emit (.log "WslService stopped.")
  let vhd_paths ← get_docker_vhd_path
  if vhd_paths.isEmpty then
    emit (.log "No Docker VHD files found for user \x27david\x27.")
  else
    optimizeEach vhd_paths
  emit (.log "Starting WSL service (WslService).")
  let _ ← run_command "powershell" "Start-Service WslService"
  emit (.log "WslService start requested.")
  emit (.log "DEBUG: Waiting for WslService to reach \x27Running\x27 state with timeout.")
  wslWaitLoop
  tryPy (do
    let wsl_check_output ← run_command "wsl.exe" "-l"
    if wsl_check_output == "" then
      emit (.log "ERROR: WSL command returned empty output. WSL might not be operational.")
    else
      emit (.log ("WSL operational check succeeded. Output: " ++ wsl_check_output)))
   (fun e => emit (.log ("ERROR: Exception during WSL operational check: " ++ pyMsg e)))
  start_docker_desktop docker_desktop_path
  emit (.log "Docker Desktop restart attempted with exponential backoff.")
  let ok2 ← check_docker_running
  if !ok2 then do
    emit (.log "WARNING: Docker daemon still not accessible after startup attempt. Attempting one additional restart.")
    kill_docker_processes
    start_docker_desktop docker_desktop_path
    let ok3 ← check_docker_running
    if ok3 then
      emit (.log "Docker daemon responsive after additional restart.")
    else
      emit (.log "ERROR: Docker daemon still not responsive after additional restart.")
  else
    pure ()
  emit (.log "DEBUG: Maintenance tasks completed successfully.")

/-- The contents of the `try` block of `run_maintenance_tasks`: the
pre-flight daemon check (with a start attempt and an early return when
Docker cannot be brought up) followed by `pruneAndLater`. -/
def maintenanceSteps : M Unit := do
  let ok0 ← check_docker_running
  if ok0 then
    pruneAndLater
  else do
    emit (.log "Docker is not running; attempting to start Docker Desktop.")
    start_docker_desktop docker_desktop_path
    emit (.log "Waiting 60 seconds for Docker to start...")
    sleepM 60
    let ok1 ← check_docker_running
    if !ok1 then
      emit (.log "Docker still isn\x27t running after attempting to start it.")
    else do
      emit (.log "Docker is now running.")
      pruneAndLater

/-- `run_maintenance_tasks`: the whole pipeline wrapped in
`try ... except Exception as e: log(...)`, so no step failure ever
propagates past this boundary. -/
def run_maintenance_tasks : M Unit :=
  tryPy (do
    emit Event.enterMaintenance
    maintenanceSteps)
  (fun e => emit (.log ("Error during maintenance tasks: " ++ pyMsg e)))

/-! ### The scheduler (`main`, `SvcDoRun`, `SvcStop`)

The daily wake-time computation is modelled twice, at matching
granularities: `nextRunAt` works on exact `datetime` values
(day index plus microsecond-of-day) and is the direct translation of
lines 113-118 of `main`; the loop model below uses the same arithmetic
at second granularity for its clock. -/

/-- Microseconds in a day. -/
def microPerDay : Nat := 86400000000

/-- 02:00:00.000000 as microsecond-of-day: the `now.replace(hour=2,
minute=0, second=0, microsecond=0)` target. -/
def twoAM : Nat := 7200000000

/-- A `datetime.datetime` value: day index and microsecond-of-day. -/
structure PyTime where
  day : Nat
  micro : Nat
  deriving DecidableEq, Repr

/-- `now >= scheduled_time` on datetimes. -/
def pyTimeGe (a b : PyTime) : Bool :=
  Nat.blt b.day a.day || (a.day == b.day && Nat.ble b.micro a.micro)

/-- The scheduler's next wake time for current time `now`:
`scheduled_time = now.replace(hour=2, minute=0, second=0, microsecond=0)`,
then `if now >= scheduled_time: scheduled_time += timedelta(days=1)`. -/
def nextRunAt (now : PyTime) : PyTime :=
  let scheduled : PyTime := ⟨now.day, twoAM⟩
  if pyTimeGe now scheduled then ⟨scheduled.day + 1, scheduled.micro⟩
  else scheduled

/-- `wait_seconds = (scheduled_time - now).total_seconds()`, at the
second granularity of the loop model's clock. -/
def waitSecondsOf (clock : Nat) : Nat :=
  let secOfDay := clock % 86400
  if secOfDay ≥ 7200 then 86400 + 7200 - secOfDay else 7200 - secOfDay

/-- At which point of a scheduler-loop iteration the `SvcStop` handler
runs: just before the `while self.is_running` check, during the
`WaitForSingleObject` wait, or while `run_maintenance_tasks` is in
progress. -/
inductive StopPoint where
  | beforeCheck
  | duringWait
  | duringRun
  deriving DecidableEq, Repr

/-- Environment of the whole service: the external-command behaviours
plus the (at most one) delivery of a stop signal, given as the loop
iteration index and the point within that iteration. -/
structure Env where
  ext : ExtEnv
  stop : Option (Nat × StopPoint)

/-- The `while self.is_running` loop of `main`, with the stop-signal
interleaving made explicit.  `SvcStop` sets `is_running = False` and
signals the auto-reset `stop_event`; the loop sees this at the condition
check (exit before waiting) or at the wait (`WAIT_OBJECT_0`, break).
The pipeline itself never reads either flag, so a stop during a run only
flips them for the next iteration.  `fuel` bounds how many iterations of
the unbounded loop are observed. -/
def svcLoop (env : Env) : Nat → Nat → Bool → Bool → St → Out Unit
  | 0, _, _, _, st => ⟨.ok (), st, []⟩
  | fuel + 1, iter, running, eventSet, st =>
    let s0 := env.stop == some (iter, .beforeCheck)
    let t0 : List Event := if s0 then [.log "Service stop requested."] else []
    let running := running && !s0
    let eventSet := eventSet || s0
    if !running then ⟨.ok (), st, t0⟩
    else
      let ws := waitSecondsOf st.clock
      let t1 := t0 ++ [.log "DEBUG: Waiting until next run", .waitFor ws]
      if eventSet then ⟨.ok (), st, t1⟩
      else if env.stop == some (iter, .duringWait) then
        ⟨.ok (), st, t1 ++ [.log "Service stop requested."]⟩
      else
        let st1 : St := { st with clock := st.clock + ws }
        let o := run_maintenance_tasks env.ext st1
        let s2 := env.stop == some (iter, .duringRun)
        let t2 := t1 ++ [.log "DEBUG: Scheduled time reached. Starting maintenance tasks."] ++
          o.trace ++ (if s2 then [.log "Service stop requested."] else [])
        match o.res with
        | .error e => ⟨.error e, o.st, t2⟩
        | .ok _ =>
          let o2 := svcLoop env fuel (iter + 1) (running && !s2) (eventSet || s2) o.st
          ⟨o2.res, o2.st, t2 ++ o2.trace⟩

/-- `main()`: the loop starting from `is_running = True` with the stop
event unsignalled, followed by the exit log. -/
def svcMainModel (fuel : Nat) (env : Env) (st : St) : Out Unit :=
  let o := svcLoop env fuel 0 true false st
  match o.res with
  | .ok _ => ⟨.ok (), o.st, o.trace ++ [.log "DEBUG: Service main loop exited; stopping service."]⟩
  | .error e => ⟨.error e, o.st, o.trace⟩

/-- `SvcDoRun()`: clear the log, write the startup file, report RUNNING,
log the startup lines, run one immediate maintenance pass, then enter
`main()`; an escaping exception is logged and re-raised. -/
def svcDoRunModel (fuel : Nat) (env : Env) (st : St) : Out Unit :=
  let t0 : List Event := [.clearLog, .startupFile, .reportRunning,
    .log "DEBUG: SvcDoRun() entered.", .log "Service started.",
    .log "Service environment PATH: ", .log "DEBUG: Starting immediate maintenance tasks."]
  let o := run_maintenance_tasks env.ext st
  match o.res with
  | .error e => ⟨.error e, o.st, t0 ++ o.trace ++ [.log ("Exception in SvcDoRun: " ++ pyMsg e)]⟩
  | .ok _ =>
    let o2 := svcMainModel fuel env o.st
    match o2.res with
    | .ok _ => ⟨.ok (), o2.st, t0 ++ o.trace ++ o2.trace⟩
    | .error e => ⟨.error e, o2.st, t0 ++ o.trace ++ o2.trace ++
        [.log ("Exception in SvcDoRun: " ++ pyMsg e)]⟩

/-- Is this event the start of a `run_maintenance_tasks` pass? -/
def isMaintB : Event → Bool
  | .enterMaintenance => true
  | _ => false

/-- Is this event a scheduler wait (`WaitForSingleObject`)? -/
def isWaitB : Event → Bool
  | .waitFor _ => true
  | _ => false

/-- Number of maintenance passes started in a trace. -/
def nMaint (t : List Event) : Nat := t.countP isMaintB

/-- Number of scheduler waits in a trace. -/
def nWait (t : List Event) : Nat := t.countP isWaitB

/-- Is this event a `ShellExecute` launch attempt? -/
def isShellExecB : Event → Bool
  | .shellExec _ => true
  | _ => false

/-- Is this event a `time.sleep`? -/
def isSleepB : Event → Bool
  | .sleep _ => true
  | _ => false

/-- Is this event a `subprocess.run` argv spawn? -/
def isSpawnB : Event → Bool
  | .spawn _ => true
  | _ => false

/-- Is this event a `shell=True` spawn (the `tasklist` check)? -/
def isShellCmdB : Event → Bool
  | .shellCmd _ => true
  | _ => false

/-! ### Trace predicates and compositional lemmas -/

/-- Every event of every trace of `m` satisfies `P`. -/
def TraceAll (P : Event → Prop) {α : Type} (m : M α) : Prop :=
  ∀ env st, ∀ e ∈ (m env st).trace, P e

/-- An event of the pipeline proper: neither a maintenance-entry marker
nor a scheduler wait. -/
def Plain (e : Event) : Prop := isMaintB e = false ∧ isWaitB e = false

theorem traceAll_mBind {P : Event → Prop} {α β : Type} {m : M α} {k : α → M β}
    (hm : TraceAll P m) (hk : ∀ a, TraceAll P (k a)) : TraceAll P (mBind m k) := by
  intro env st e he
  unfold mBind at he
  cases ho : m env st with
  | mk res st1 t1 =>
    rw [ho] at he
    cases res with
    | ok a =>
      simp only [List.mem_append] at he
      rcases he with h | h
      · exact hm env st e (by rw [ho]; exact h)
      · exact hk a env st1 e h
    | error e1 =>
      exact hm env st e (by rw [ho]; exact he)

theorem traceAll_tryPy {P : Event → Prop} {α : Type} {m : M α} {h : PyExn → M α}
    (hm : TraceAll P m) (hh : ∀ e, TraceAll P (h e)) : TraceAll P (tryPy m h) := by
  intro env st e he
  unfold tryPy at he
  cases ho : m env st with
  | mk res st1 t1 =>
    rw [ho] at he
    cases res with
    | ok a =>
      exact hm env st e (by rw [ho]; exact he)
    | error e1 =>
      simp only [List.mem_append] at he
      rcases he with h1 | h1
      · exact hm env st e (by rw [ho]; exact h1)
      · exact hh e1 env st1 e h1

theorem traceAll_ite {P : Event → Prop} {α : Type} {c : Prop} [Decidable c] {m1 m2 : M α}
    (h1 : TraceAll P m1) (h2 : TraceAll P m2) : TraceAll P (if c then m1 else m2) := by
  split <;> assumption

theorem traceAll_mPure {P : Event → Prop} {α : Type} (a : α) : TraceAll P (mPure a) := by
  intro env st e he
  simp [mPure] at he

theorem traceAll_throwPy {P : Event → Prop} {α : Type} (e : PyExn) :
    TraceAll P (throwPy e : M α) := by
  intro env st x hx
  simp [throwPy] at hx

theorem traceAll_emit {P : Event → Prop} {e : Event} (h : P e) : TraceAll P (emit e) := by
  intro env st x hx
  simp [emit] at hx
  simpa [hx] using h

theorem plain_log (s : String) : Plain (.log s) := ⟨rfl, rfl⟩

theorem plain_sleepM (n : Nat) : TraceAll Plain (sleepM n) := by
  intro env st e he
  simp [sleepM] at he
  simp [he, Plain, isMaintB, isWaitB]

theorem plain_subprocessRun (argv : List String) : TraceAll Plain (subprocessRun argv) := by
  intro env st e he
  unfold subprocessRun at he
  split at he <;> simp at he <;> simp [he, Plain, isMaintB, isWaitB]

theorem plain_shellExecuteM (p : String) : TraceAll Plain (shellExecuteM p) := by
  intro env st e he
  unfold shellExecuteM at he
  split at he <;> simp at he <;> simp [he, Plain, isMaintB, isWaitB]

theorem plain_shellRunM (line : String) : TraceAll Plain (shellRunM line) := by
  intro env st e he
  unfold shellRunM at he
  split at he <;> simp at he <;> simp [he, Plain, isMaintB, isWaitB]

theorem plain_osPathExists (p : String) : TraceAll Plain (osPathExists p) := by
  intro env st e he
  simp [osPathExists] at he

theorem plain_osPathIsFile (p : String) : TraceAll Plain (osPathIsFile p) := by
  intro env st e he
  simp [osPathIsFile] at he

theorem plain_run_command (c a : String) : TraceAll Plain (run_command c a) := by
  unfold run_command
  simp only [bind_def]
  apply traceAll_mBind (traceAll_emit (plain_log _))
  intro _
  apply traceAll_mBind
  · apply traceAll_tryPy (plain_subprocessRun _)
    intro e
    cases e
    · exact traceAll_mBind (traceAll_emit (plain_log _)) (fun _ => traceAll_throwPy _)
    · exact traceAll_throwPy _
  · intro r
    apply traceAll_ite
    · exact traceAll_mBind (traceAll_emit (plain_log _)) (fun _ => traceAll_throwPy _)
    · simp only [pure_def]
      exact traceAll_mBind (traceAll_emit (plain_log _)) (fun _ => traceAll_mPure _)

theorem plain_check_docker_running : TraceAll Plain check_docker_running := by
  unfold check_docker_running
  simp only [bind_def, pure_def]
  apply traceAll_tryPy
  · exact traceAll_mBind (plain_run_command _ _) (fun _ => traceAll_mPure _)
  · intro e
    exact traceAll_mBind (traceAll_emit (plain_log _)) (fun _ => traceAll_mPure _)

theorem plain_get_docker_container_count : TraceAll Plain get_docker_container_count := by
  unfold get_docker_container_count
  simp only [bind_def, pure_def]
  apply traceAll_tryPy
  · exact traceAll_mBind (plain_subprocessRun _) (fun _ => traceAll_mPure _)
  · intro e
    exact traceAll_mBind (traceAll_emit (plain_log _)) (fun _ => traceAll_mPure _)

theorem plain_kill_process (p : String) : TraceAll Plain (kill_process p) := by
  unfold kill_process
  simp only [bind_def]
  apply traceAll_mBind (traceAll_emit (plain_log _))
  intro _
  exact traceAll_mBind (plain_subprocessRun _) (fun _ => traceAll_emit (plain_log _))

theorem plain_killEach (ps : List String) : TraceAll Plain (killEach ps) := by
  induction ps with
  | nil => exact traceAll_mPure _
  | cons p rest ih =>
    unfold killEach
    simp only [bind_def]
    apply traceAll_mBind
    · apply traceAll_tryPy
      · exact traceAll_mBind (plain_kill_process _) (fun _ => traceAll_emit (plain_log _))
      · intro e
        exact traceAll_emit (plain_log _)
    · intro _
      exact ih

theorem plain_kill_docker_processes : TraceAll Plain kill_docker_processes :=
  plain_killEach _

theorem plain_get_docker_vhd_path : TraceAll Plain get_docker_vhd_path := by
  unfold get_docker_vhd_path
  simp only [bind_def, pure_def]
  apply traceAll_mBind (traceAll_emit (plain_log _))
  intro _
  apply traceAll_mBind (plain_osPathIsFile _)
  intro b
  apply traceAll_ite
  · exact traceAll_mBind (traceAll_emit (plain_log _)) (fun _ => traceAll_mPure _)
  · exact traceAll_mBind (traceAll_emit (plain_log _)) (fun _ => traceAll_mPure _)

theorem plain_startLoop (p : String) (fuel attempt delay : Nat) :
    TraceAll Plain (startLoop p fuel attempt delay) := by
  induction fuel generalizing attempt delay with
  | zero => exact traceAll_emit (plain_log _)
  | succ n ih =>
    unfold startLoop
    simp only [bind_def, pure_def]
    apply traceAll_mBind
    · apply traceAll_tryPy
      · exact traceAll_mBind (plain_shellExecuteM _) (fun _ => traceAll_emit (plain_log _))
      · intro e
        exact traceAll_emit (plain_log _)
    · intro _
      apply traceAll_mBind (plain_sleepM _)
      intro _
      apply traceAll_mBind (plain_shellRunM _)
      intro out
      apply traceAll_ite
      · apply traceAll_mBind (traceAll_emit (plain_log _))
        intro _
        apply traceAll_mBind
        · apply traceAll_tryPy
          · apply traceAll_mBind (plain_run_command _ _)
            intro _
            exact traceAll_mBind (traceAll_emit (plain_log _)) (fun _ => traceAll_mPure _)
          · intro e
            exact traceAll_mBind (traceAll_emit (plain_log _)) (fun _ => traceAll_mPure _)
        · intro y
          apply traceAll_ite
          · exact traceAll_mPure _
          · apply traceAll_mBind (traceAll_emit (plain_log _))
            intro _
            exact traceAll_mBind (plain_sleepM _) (fun _ => ih _ _)
      · apply traceAll_mBind (traceAll_emit (plain_log _))
        intro _
        apply traceAll_mBind
        · exact traceAll_mPure false
        · intro y
          apply traceAll_ite
          · exact traceAll_mPure _
          · apply traceAll_mBind (traceAll_emit (plain_log _))
            intro _
            exact traceAll_mBind (plain_sleepM _) (fun _ => ih _ _)

theorem plain_start_docker_desktop (p : String) : TraceAll Plain (start_docker_desktop p) := by
  unfold start_docker_desktop
  simp only [bind_def]
  apply traceAll_mBind (traceAll_emit (plain_log _))
  intro _
  apply traceAll_mBind (plain_osPathExists _)
  intro b
  apply traceAll_ite
  · exact traceAll_emit (plain_log _)
  · exact plain_startLoop _ _ _ _

theorem plain_wslPollLoop (start : Nat) (env : ExtEnv) (st : St) :
    ∀ e ∈ (wslPollLoop start env st).trace, Plain e := by
  induction st using wslPollLoop.induct start env with
  | case1 st1 o e1 hres =>
    intro e he
    unfold wslPollLoop at he
    dsimp only [] at he
    split at he
    · simp only [List.mem_append] at he
      rcases he with h | h
      · exact plain_run_command _ _ env st1 e h
      · exact traceAll_emit (plain_log _) env _ e h
    · rename_i sR heq
      have hres' : (run_command "powershell" "(Get-Service WslService).Status" env st1).res
          = Except.error e1 := hres
      rw [hres'] at heq
      simp at heq
  | case2 st1 o statusRaw hres hrun =>
    intro e he
    have hres' : (run_command "powershell" "(Get-Service WslService).Status" env st1).res
        = Except.ok statusRaw := hres
    unfold wslPollLoop at he
    dsimp only [] at he
    split at he
    · rename_i e2 heq
      rw [hres'] at heq
      simp at heq
    · rename_i sR heq
      rw [hres'] at heq
      injection heq with hh
      subst hh
      rw [if_pos hrun] at he
      simp only [List.mem_append] at he
      rcases he with h | h
      · exact plain_run_command _ _ env st1 e h
      · exact traceAll_emit (plain_log _) env _ e h
  | case3 st1 o statusRaw hres hrun htime =>
    intro e he
    have hres' : (run_command "powershell" "(Get-Service WslService).Status" env st1).res
        = Except.ok statusRaw := hres
    unfold wslPollLoop at he
    dsimp only [] at he
    split at he
    · rename_i e2 heq
      rw [hres'] at heq
      simp at heq
    · rename_i sR heq
      rw [hres'] at heq
      injection heq with hh
      subst hh
      rw [if_neg hrun, if_pos htime] at he
      simp only [List.mem_append] at he
      rcases he with h | h
      · exact plain_run_command _ _ env st1 e h
      · exact traceAll_emit (plain_log _) env _ e h
  | case4 st1 o statusRaw hres hrun htime o1 ih =>
    intro e he
    have hres' : (run_command "powershell" "(Get-Service WslService).Status" env st1).res
        = Except.ok statusRaw := hres
    unfold wslPollLoop at he
    dsimp only [] at he
    split at he
    · rename_i e2 heq
      rw [hres'] at heq
      simp at heq
    · rename_i sR heq
      rw [hres'] at heq
      injection heq with hh
      subst hh
      rw [if_neg hrun, if_neg htime] at he
      simp only [List.mem_append] at he
      rcases he with (h | h) | h
      · exact plain_run_command _ _ env st1 e h
      · exact plain_sleepM _ env _ e h
      · exact ih e h

theorem plain_wslWaitLoop : TraceAll Plain wslWaitLoop := by
  intro env st e he
  exact plain_wslPollLoop st.clock env st e he

theorem plain_optimizeEach (ps : List String) : TraceAll Plain (optimizeEach ps) := by
  induction ps with
  | nil => exact traceAll_mPure _
  | cons p rest ih =>
    unfold optimizeEach
    simp only [bind_def]
    apply traceAll_mBind (traceAll_emit (plain_log _))
    intro _
    apply traceAll_mBind (plain_run_command _ _)
    intro _
    exact traceAll_mBind (traceAll_emit (plain_log _)) (fun _ => ih)

theorem plain_pruneAndLater : TraceAll Plain pruneAndLater := by
  have hrest : TraceAll Plain ((do
      emit (Event.log "Starting WSL service (WslService).")
      let _ ← run_command "powershell" "Start-Service WslService"
      emit (Event.log "WslService start requested.")
      emit (Event.log "DEBUG: Waiting for WslService to reach \x27Running\x27 state with timeout.")
      wslWaitLoop
      tryPy (do
        let wsl_check_output ← run_command "wsl.exe" "-l"
        if wsl_check_output == "" then
          emit (Event.log "ERROR: WSL command returned empty output. WSL might not be operational.")
        else
          emit (Event.log ("WSL operational check succeeded. Output: " ++ wsl_check_output)))
       (fun e => emit (Event.log ("ERROR: Exception during WSL operational check: " ++ pyMsg e)))
      start_docker_desktop docker_desktop_path
      emit (Event.log "Docker Desktop restart attempted with exponential backoff.")
      let ok2 ← check_docker_running
      if !ok2 then do
        emit (Event.log "WARNING: Docker daemon still not accessible after startup attempt. Attempting one additional restart.")
        kill_docker_processes
        start_docker_desktop docker_desktop_path
        let ok3 ← check_docker_running
        if ok3 then
          emit (Event.log "Docker daemon responsive after additional restart.")
        else
          emit (Event.log "ERROR: Docker daemon still not responsive after additional restart.")
      else
        pure ()
      emit (Event.log "DEBUG: Maintenance tasks completed successfully.")) : M Unit) := by
    simp only [bind_def, pure_def]
    apply traceAll_mBind (traceAll_emit (plain_log _))
    intro _
    apply traceAll_mBind (plain_run_command _ _)
    intro _
    apply traceAll_mBind (traceAll_emit (plain_log _))
    intro _
    apply traceAll_mBind (traceAll_emit (plain_log _))
    intro _
    apply traceAll_mBind plain_wslWaitLoop
    intro _
    apply traceAll_mBind
    · apply traceAll_tryPy
      · apply traceAll_mBind (plain_run_command _ _)
        intro s
        apply traceAll_ite
        · exact traceAll_emit (plain_log _)
        · exact traceAll_emit (plain_log _)
      · intro e
        exact traceAll_emit (plain_log _)
    · intro _
      apply traceAll_mBind (plain_start_docker_desktop _)
      intro _
      apply traceAll_mBind (traceAll_emit (plain_log _))
      intro _
      apply traceAll_mBind plain_check_docker_running
      intro ok2
      apply traceAll_ite
      · apply traceAll_mBind (traceAll_emit (plain_log _))
        intro _
        apply traceAll_mBind plain_kill_docker_processes
        intro _
        apply traceAll_mBind (plain_start_docker_desktop _)
        intro _
        apply traceAll_mBind plain_check_docker_running
        intro ok3
        apply traceAll_ite
        · exact traceAll_mBind (traceAll_emit (plain_log _)) (fun _ => traceAll_emit (plain_log _))
        · exact traceAll_mBind (traceAll_emit (plain_log _)) (fun _ => traceAll_emit (plain_log _))
      · apply traceAll_mBind
        · exact traceAll_mPure ()
        · intro _
          exact traceAll_emit (plain_log _)
  unfold pruneAndLater
  simp only [bind_def, pure_def]
  apply traceAll_mBind plain_get_docker_container_count
  intro n1
  apply traceAll_mBind (traceAll_emit (plain_log _))
  intro _
  apply traceAll_mBind (plain_run_command _ _)
  intro _
  apply traceAll_mBind (traceAll_emit (plain_log _))
  intro _
  apply traceAll_mBind plain_get_docker_container_count
  intro n2
  apply traceAll_mBind (traceAll_emit (plain_log _))
  intro _
  apply traceAll_mBind (traceAll_emit (plain_log _))
  intro _
  apply traceAll_mBind plain_kill_docker_processes
  intro _
  apply traceAll_mBind (traceAll_emit (plain_log _))
  intro _
  apply traceAll_mBind (plain_run_command _ _)
  intro _
  apply traceAll_mBind (traceAll_emit (plain_log _))
  intro _
  apply traceAll_mBind plain_get_docker_vhd_path
  intro paths
  apply traceAll_ite
  · apply traceAll_mBind (traceAll_emit (plain_log _))
    intro _
    exact hrest
  · apply traceAll_mBind (plain_optimizeEach _)
    intro _
    exact hrest

theorem plain_maintenanceSteps : TraceAll Plain maintenanceSteps := by
  unfold maintenanceSteps
  simp only [bind_def]
  apply traceAll_mBind plain_check_docker_running
  intro ok0
  apply traceAll_ite
  · exact plain_pruneAndLater
  · apply traceAll_mBind (traceAll_emit (plain_log _))
    intro _
    apply traceAll_mBind (plain_start_docker_desktop _)
    intro _
    apply traceAll_mBind (traceAll_emit (plain_log _))
    intro _
    apply traceAll_mBind (plain_sleepM _)
    intro _
    apply traceAll_mBind plain_check_docker_running
    intro ok1
    apply traceAll_ite
    · exact traceAll_emit (plain_log _)
    · apply traceAll_mBind (traceAll_emit (plain_log _))
      intro _
      exact plain_pruneAndLater

/-- Core behaviour of one maintenance pass, for every external-world
behaviour: it returns normally (the `try/except` converts every raised
step failure), enters exactly once, and performs no scheduler wait. -/
theorem run_maintenance_tasks_spec (env : ExtEnv) (st : St) :
    (run_maintenance_tasks env st).res = Except.ok () ∧
    nMaint (run_maintenance_tasks env st).trace = 1 ∧
    nWait (run_maintenance_tasks env st).trace = 0 := by
  have hplain := plain_maintenanceSteps env st
  unfold run_maintenance_tasks
  simp only [bind_def, mBind, emit, tryPy]
  cases hms : maintenanceSteps env st with
  | mk res1 st1 t1 =>
    have hm1 : t1.countP isMaintB = 0 := by
      apply List.countP_eq_zero.mpr
      intro e he
      have := (hplain e (by rw [hms]; exact he)).1
      simp [this]
    have hw1 : t1.countP isWaitB = 0 := by
      apply List.countP_eq_zero.mpr
      intro e he
      have := (hplain e (by rw [hms]; exact he)).2
      simp [this]
    cases res1 with
    | ok a =>
      cases a
      refine ⟨rfl, ?_, ?_⟩ <;>
        simp [nMaint, nWait, List.countP_cons, hm1, hw1, isMaintB, isWaitB]
    | error e =>
      refine ⟨rfl, ?_, ?_⟩ <;>
        simp [nMaint, nWait, List.countP_cons, List.countP_append, hm1, hw1, isMaintB, isWaitB]

/-! ### Concrete worlds used by the witnesses -/

/-- A concrete external world in which `docker info` succeeds and the
prune command exits 1; everything else completes trivially. -/
def pruneFailEnv : ExtEnv where
  spawnResult := fun _ argv =>
    if argv = ["docker", "info"] then .completed 0 "info out" ""
    else if argv = ["powershell", "-Command", prune_cmd_args] then .completed 1 "" "prune boom"
    else .completed 0 "" ""
  spawnDuration := fun _ => 0
  shellExecuteOk := fun _ => true
  shellRun := fun _ => .ok ""
  pathExists := fun _ => true
  isFile := fun _ => false

/-- A world in which the container listing exits non-zero with empty
stdout. -/
def listFailEnv : ExtEnv where
  spawnResult := fun _ _ => .completed 1 "" "error during connect"
  spawnDuration := fun _ => 0
  shellExecuteOk := fun _ => true
  shellRun := fun _ => .ok ""
  pathExists := fun _ => true
  isFile := fun _ => false

/-- A world in which every launch succeeds but the desktop process never
appears in the `tasklist` output. -/
def neverVisibleEnv : ExtEnv where
  spawnResult := fun _ _ => .completed 0 "" ""
  spawnDuration := fun _ => 0
  shellExecuteOk := fun _ => true
  shellRun := fun _ => .ok "INFO: No tasks are running which match the specified criteria."
  pathExists := fun _ => true
  isFile := fun _ => false

/-- `neverVisibleEnv` with the Docker Desktop executable absent. -/
def noExeEnv : ExtEnv :=
  { neverVisibleEnv with pathExists := fun _ => false }

def st0 : St := ⟨0, 0⟩

/-! ### Claim theorems -/

/-- C1: For every behaviour of the external commands (success, non-zero
exit, timeout, launch failure — all values of `ExtEnv`), a maintenance
run returns normally, never propagating an exception, and a failure of
the step sequence is converted into the logged
`Error during maintenance tasks:` outcome inside the run. -/
theorem maintenance_run_never_raises (env : ExtEnv) (st : St) :
    (run_maintenance_tasks env st).res = Except.ok () ∧
    (∀ e1, (maintenanceSteps env st).res = Except.error e1 →
      Event.log ("Error during maintenance tasks: " ++ pyMsg e1) ∈
        (run_maintenance_tasks env st).trace) := by
  refine ⟨(run_maintenance_tasks_spec env st).1, ?_⟩
  intro e1 herr
  unfold run_maintenance_tasks
  simp only [bind_def, mBind, emit, tryPy]
  cases hms : maintenanceSteps env st with
  | mk res1 st1 t1 =>
    rw [hms] at herr
    cases res1 with
    | ok a => exact absurd herr (by simp)
    | error e2 =>
      have he : e2 = e1 := by
        injection herr
      subst he
      simp

/-- C1 witness: in the world where the prune command exits 1, the run
still returns normally and the failure is logged. -/
theorem maintenance_run_never_raises_witness :
    (run_maintenance_tasks pruneFailEnv st0).res = Except.ok () ∧
    Event.log ("Error during maintenance tasks: " ++
        pyMsg (PyExn.err ("Command failed: powershell " ++ prune_cmd_args ++
          ". Error: prune boom (Stdout: )"))) ∈
      (run_maintenance_tasks pruneFailEnv st0).trace :=
  ⟨(maintenance_run_never_raises pruneFailEnv st0).1,
   (maintenance_run_never_raises pruneFailEnv st0).2 _ (by rfl)⟩

/-- C3: the next wake time is today at 02:00 exactly when the current
time-of-day is strictly before 02:00; at or after 02:00 — including
exactly 02:00:00.000 — it is tomorrow at 02:00. -/
theorem scheduler_next_wake (d m : Nat) (hm : m < microPerDay) :
    (m < twoAM → nextRunAt ⟨d, m⟩ = ⟨d, twoAM⟩) ∧
    (twoAM ≤ m → nextRunAt ⟨d, m⟩ = ⟨d + 1, twoAM⟩) := by
  constructor
  · intro h
    unfold nextRunAt pyTimeGe
    simp [Nat.blt_eq, Nat.ble_eq, Nat.not_le.mpr h]
  · intro h
    unfold nextRunAt pyTimeGe
    simp [Nat.blt_eq, Nat.ble_eq, h]

/-- C3 witness: 01:00 wakes the same day at 02:00; exactly 02:00 and
03:00 wake the next day at 02:00. -/
theorem scheduler_next_wake_witness :
    nextRunAt ⟨0, 3600000000⟩ = ⟨0, twoAM⟩ ∧
    nextRunAt ⟨0, twoAM⟩ = ⟨1, twoAM⟩ ∧
    nextRunAt ⟨0, 10800000000⟩ = ⟨1, twoAM⟩ :=
  ⟨(scheduler_next_wake 0 3600000000 (by decide)).1 (by decide),
   (scheduler_next_wake 0 twoAM (by decide)).2 (le_refl _),
   (scheduler_next_wake 0 10800000000 (by decide)).2 (by decide)⟩

/-- C6 counterexample: for the taskkill invocation the source passes the
whole argument text as one list element, not one element per argument as
the claim states. -/
theorem run_command_argv_counterexample :
    buildCmd "taskkill" "/F /IM docker.exe" ≠
      "taskkill" :: specSplitArgs "/F /IM docker.exe" := by decide

/-- C6 amended: `run_command` passes the argument text as a single
command string behind `-Command` when the program is `powershell`
(case-insensitively); for every other program the invocation is the
two-element list `[program, argsText]` — the whole argument text stays
one list element. -/
theorem run_command_argv_amended (command args : String) :
    ((pyLower command == "powershell") = true →
      buildCmd command args = [command, "-Command", args]) ∧
    ((pyLower command == "powershell") = false →
      buildCmd command args = [command, args]) ∧
    (buildCmd command args).getLast? = some args := by
  unfold buildCmd
  by_cases h : (pyLower command == "powershell") = true <;> simp [h]

/-- C6 witness for the amended claim, at the two argument shapes the
repository actually uses. -/
theorem run_command_argv_amended_witness :
    buildCmd "powershell" "Stop-Service WslService -Force" =
      ["powershell", "-Command", "Stop-Service WslService -Force"] ∧
    buildCmd "taskkill" "/F /IM docker.exe" = ["taskkill", "/F /IM docker.exe"] :=
  ⟨(run_command_argv_amended "powershell" "Stop-Service WslService -Force").1 (by decide),
   (run_command_argv_amended "taskkill" "/F /IM docker.exe").2.1 (by decide)⟩

/-- C9: `get_docker_container_count` never raises; whenever the listing
completes — with any exit code, which is never inspected — the result is
the number of non-empty lines of stdout; a failed listing with empty
stdout therefore yields `0` through the counting path
(`countContainers "" = 0`). -/
theorem container_count_total (env : ExtEnv) (st : St) :
    (∃ n : Nat, (get_docker_container_count env st).res = Except.ok n) ∧
    (∀ code out err, env.spawnResult st.calls ["docker", "ps", "-a", "-q"] =
        SpawnResult.completed code out err →
      (get_docker_container_count env st).res = Except.ok (countContainers out)) ∧
    countContainers "" = 0 := by
  have hchar : ∀ code out err, env.spawnResult st.calls ["docker", "ps", "-a", "-q"] =
      SpawnResult.completed code out err →
      (get_docker_container_count env st).res = Except.ok (countContainers out) := by
    intro code out err h
    unfold get_docker_container_count tryPy
    simp only [bind_def, mBind, subprocessRun, pure_def, mPure, h]
  refine ⟨?_, hchar, by decide⟩
  unfold get_docker_container_count tryPy
  simp only [bind_def, mBind, subprocessRun, pure_def, mPure, emit]
  cases h : env.spawnResult st.calls ["docker", "ps", "-a", "-q"] <;> simp [h]

/-- C9 witness: a listing that exits 1 with empty stdout yields 0 via
the counting path. -/
theorem container_count_total_witness :
    (get_docker_container_count listFailEnv st0).res = Except.ok (countContainers "") ∧
    countContainers "" = 0 :=
  ⟨(container_count_total listFailEnv st0).2.1 1 "" "error during connect" rfl,
   (container_count_total listFailEnv st0).2.2⟩

/-- C10: `get_docker_vhd_path` checks exactly one hardcoded candidate,
so the result is the empty list or the singleton of that path — never
two or more backing files. -/
theorem vhd_paths_at_most_one (env : ExtEnv) (st : St) :
    ∃ l : List String, (get_docker_vhd_path env st).res = Except.ok l ∧
      l.length ≤ 1 ∧ (l = [] ∨ l = [vhd_target_path]) ∧
      l = (if env.isFile vhd_target_path then [vhd_target_path] else []) := by
  unfold get_docker_vhd_path osPathIsFile
  by_cases h : env.isFile vhd_target_path <;>
    simp [h, bind_def, mBind, emit, pure_def, mPure]

/-- C8: `start_docker_desktop` validates the executable path before the
first attempt; on a missing binary it logs and returns at once — the
whole outcome is the two log lines, with zero launch attempts and zero
retry waits. -/
theorem start_docker_missing_exe (env : ExtEnv) (p : String) (st : St)
    (h : env.pathExists p = false) :
    start_docker_desktop p env st =
      ⟨Except.ok (), st,
        [Event.log ("DEBUG: Attempting to start Docker Desktop: " ++ p),
         Event.log ("ERROR: Docker Desktop executable not found: " ++ p)]⟩ ∧
    (start_docker_desktop p env st).trace.countP isShellExecB = 0 ∧
    (start_docker_desktop p env st).trace.countP isSleepB = 0 := by
  have hmain : start_docker_desktop p env st =
      ⟨Except.ok (), st,
        [Event.log ("DEBUG: Attempting to start Docker Desktop: " ++ p),
         Event.log ("ERROR: Docker Desktop executable not found: " ++ p)]⟩ := by
    unfold start_docker_desktop
    simp [bind_def, mBind, emit, osPathExists, h]
  refine ⟨hmain, ?_, ?_⟩ <;> rw [hmain] <;> simp [isShellExecB, isSleepB]

/-- C8 witness: with the executable absent the run is exactly the two
log lines. -/
theorem start_docker_missing_exe_witness :
    start_docker_desktop docker_desktop_path noExeEnv st0 =
      ⟨Except.ok (), st0,
        [Event.log ("DEBUG: Attempting to start Docker Desktop: " ++ docker_desktop_path),
         Event.log ("ERROR: Docker Desktop executable not found: " ++ docker_desktop_path)]⟩ ∧
    (start_docker_desktop docker_desktop_path noExeEnv st0).trace.countP isShellExecB = 0 :=
  ⟨(start_docker_missing_exe noExeEnv docker_desktop_path st0 rfl).1,
   (start_docker_missing_exe noExeEnv docker_desktop_path st0 rfl).2.1⟩

/-- C5: when the executable exists, every `ShellExecute` succeeds and
the process never appears in the `tasklist` output, the launcher
performs exactly 3 launch attempts, waits 5, 10 and 20 seconds between
each launch and its verification check (the backoff doubling each
attempt; the loop additionally sleeps the already-doubled delay of 10,
20 and 40 seconds at the end of each failed attempt), and gives up with
the terminal failure log only after the third attempt. -/
theorem launch_never_visible (env : ExtEnv) (p : String) (st : St) (tout : Nat → String)
    (hexe : env.pathExists p = true)
    (hshell : ∀ k, env.shellExecuteOk k = true)
    (htask : ∀ k, env.shellRun k = Except.ok (tout k))
    (hnv : ∀ k, pyInStr "Docker Desktop.exe" (tout k) = false) :
    (start_docker_desktop p env st).res = Except.ok () ∧
    (start_docker_desktop p env st).trace =
      [Event.log ("DEBUG: Attempting to start Docker Desktop: " ++ p),
       Event.shellExec p,
       Event.log "DEBUG: ShellExecute() succeeded (Attempt 1).",
       Event.sleep 5,
       Event.shellCmd tasklistLine,
       Event.log "ERROR: Docker Desktop does not appear to be running (Attempt 1).",
       Event.log "DEBUG: Retrying Docker Desktop launch in 10 seconds...",
       Event.sleep 10,
       Event.shellExec p,
       Event.log "DEBUG: ShellExecute() succeeded (Attempt 2).",
       Event.sleep 10,
       Event.shellCmd tasklistLine,
       Event.log "ERROR: Docker Desktop does not appear to be running (Attempt 2).",
       Event.log "DEBUG: Retrying Docker Desktop launch in 20 seconds...",
       Event.sleep 20,
       Event.shellExec p,
       Event.log "DEBUG: ShellExecute() succeeded (Attempt 3).",
       Event.sleep 20,
       Event.shellCmd tasklistLine,
       Event.log "ERROR: Docker Desktop does not appear to be running (Attempt 3).",
       Event.log "DEBUG: Retrying Docker Desktop launch in 40 seconds...",
       Event.sleep 40,
       Event.log "ERROR: Failed to start Docker Desktop after maximum retries."] ∧
    (start_docker_desktop p env st).trace.countP isShellExecB = 3 ∧
    (start_docker_desktop p env st).trace.filter isSleepB =
      [Event.sleep 5, Event.sleep 10, Event.sleep 10,
       Event.sleep 20, Event.sleep 20, Event.sleep 40] ∧
    (start_docker_desktop p env st).trace.getLast? =
      some (Event.log "ERROR: Failed to start Docker Desktop after maximum retries.") := by
  have ht1 : (toString (1 : Nat) : String) = "1" := rfl
  have ht2 : (toString (2 : Nat) : String) = "2" := rfl
  have ht3 : (toString (3 : Nat) : String) = "3" := rfl
  have ht10 : (toString (10 : Nat) : String) = "10" := rfl
  have ht20 : (toString (20 : Nat) : String) = "20" := rfl
  have ht40 : (toString (40 : Nat) : String) = "40" := rfl
  have hmain : (start_docker_desktop p env st).res = Except.ok () ∧
      (start_docker_desktop p env st).trace =
        [Event.log ("DEBUG: Attempting to start Docker Desktop: " ++ p),
         Event.shellExec p,
         Event.log "DEBUG: ShellExecute() succeeded (Attempt 1).",
         Event.sleep 5,
         Event.shellCmd tasklistLine,
         Event.log "ERROR: Docker Desktop does not appear to be running (Attempt 1).",
         Event.log "DEBUG: Retrying Docker Desktop launch in 10 seconds...",
         Event.sleep 10,
         Event.shellExec p,
         Event.log "DEBUG: ShellExecute() succeeded (Attempt 2).",
         Event.sleep 10,
         Event.shellCmd tasklistLine,
         Event.log "ERROR: Docker Desktop does not appear to be running (Attempt 2).",
         Event.log "DEBUG: Retrying Docker Desktop launch in 20 seconds...",
         Event.sleep 20,
         Event.shellExec p,
         Event.log "DEBUG: ShellExecute() succeeded (Attempt 3).",
         Event.sleep 20,
         Event.shellCmd tasklistLine,
         Event.log "ERROR: Docker Desktop does not appear to be running (Attempt 3).",
         Event.log "DEBUG: Retrying Docker Desktop launch in 40 seconds...",
         Event.sleep 40,
         Event.log "ERROR: Failed to start Docker Desktop after maximum retries."] := by
    unfold start_docker_desktop
    simp [startLoop, bind_def, mBind, tryPy, emit, sleepM, shellExecuteM, shellRunM, osPathExists,
      hexe, hshell, htask, hnv, mPure, pure_def, ht1, ht2, ht3, ht10, ht20, ht40]
  refine ⟨hmain.1, hmain.2, ?_, ?_, ?_⟩ <;> rw [hmain.2] <;>
    simp [isShellExecB, isSleepB, List.getLast?]

/-- C5 witness: in the concrete never-visible world the launcher makes
3 attempts, sleeps 5,10,10,20,20,40 seconds, and gives up. -/
theorem launch_never_visible_witness :
    (start_docker_desktop docker_desktop_path neverVisibleEnv st0).res = Except.ok () ∧
    (start_docker_desktop docker_desktop_path neverVisibleEnv st0).trace.countP isShellExecB = 3 ∧
    (start_docker_desktop docker_desktop_path neverVisibleEnv st0).trace.filter isSleepB =
      [Event.sleep 5, Event.sleep 10, Event.sleep 10,
       Event.sleep 20, Event.sleep 20, Event.sleep 40] := by
  have h := launch_never_visible neverVisibleEnv docker_desktop_path st0
    (fun _ => "INFO: No tasks are running which match the specified criteria.")
    rfl (fun _ => rfl) (fun _ => rfl)
    (fun _ =>
      (by decide :
        pyInStr "Docker Desktop.exe"
          "INFO: No tasks are running which match the specified criteria." = false))
  exact ⟨h.1, h.2.2.1, h.2.2.2.1⟩

/-! ### Step-level characterisations used for the prune-failure claim -/

theorem run_command_ok_char (c a : String) (env : ExtEnv) (st : St) (out errout : String)
    (h : env.spawnResult st.calls (buildCmd c a) = .completed 0 out errout) :
    run_command c a env st =
      ⟨Except.ok (pyStrip out),
       { st with calls := st.calls + 1, clock := st.clock + env.spawnDuration st.calls },
       [Event.log ("DEBUG: Executing command: " ++ c ++ " " ++ a),
        Event.spawn (buildCmd c a),
        Event.log ("DEBUG: Command output: " ++ pyStrip out)]⟩ := by
  unfold run_command
  simp [bind_def, mBind, tryPy, subprocessRun, emit, throwPy, pure_def, mPure, h]

theorem run_command_fail_char (c a : String) (env : ExtEnv) (st : St)
    (code : Nat) (out errout : String) (hc : code ≠ 0)
    (h : env.spawnResult st.calls (buildCmd c a) = .completed code out errout) :
    run_command c a env st =
      ⟨Except.error (.err ("Command failed: " ++ c ++ " " ++ a ++ ". Error: " ++ errout ++
          " (Stdout: " ++ out ++ ")")),
       { st with calls := st.calls + 1, clock := st.clock + env.spawnDuration st.calls },
       [Event.log ("DEBUG: Executing command: " ++ c ++ " " ++ a),
        Event.spawn (buildCmd c a),
        Event.log ("Command failed: " ++ c ++ " " ++ a ++ ". Error: " ++ errout ++
          " (Stdout: " ++ out ++ ")")]⟩ := by
  unfold run_command
  simp [bind_def, mBind, tryPy, subprocessRun, emit, throwPy, pure_def, mPure, h, hc]

theorem get_count_char (env : ExtEnv) (st : St) :
    ∃ (n : Nat) (t : List Event),
      get_docker_container_count env st =
        ⟨Except.ok n,
         { st with calls := st.calls + 1, clock := st.clock + env.spawnDuration st.calls },
         Event.spawn ["docker", "ps", "-a", "-q"] :: t⟩ ∧
      (∀ e ∈ t, ∃ m, e = Event.log m) := by
  unfold get_docker_container_count tryPy
  cases h : env.spawnResult st.calls ["docker", "ps", "-a", "-q"] <;>
    simp [bind_def, mBind, subprocessRun, emit, pure_def, mPure, h] <;>
    exact ⟨_, _, ⟨rfl, rfl⟩, by simp⟩

theorem check_docker_ok_char (env : ExtEnv) (st : St) (out : String)
    (h : env.spawnResult st.calls (buildCmd "docker" "info") = .completed 0 out "") :
    check_docker_running env st =
      ⟨Except.ok true,
       { st with calls := st.calls + 1, clock := st.clock + env.spawnDuration st.calls },
       [Event.log "DEBUG: Executing command: docker info",
        Event.spawn (buildCmd "docker" "info"),
        Event.log ("DEBUG: Command output: " ++ pyStrip out)]⟩ := by
  unfold check_docker_running tryPy
  simp only [bind_def, mBind, pure_def, mPure]
  rw [run_command_ok_char "docker" "info" env st out "" h]
  rfl

/-- C2: whenever the pre-flight `docker info` succeeds and the prune
command exits non-zero, the run halts at the prune: the only spawned
commands of the whole run are the `docker info` check, the
container-count listing and the failed prune (in that order) — no
`taskkill`, no `Stop-Service WslService`, no `Optimize-VHD`, no
`Start-Service WslService`, no status polls, no `wsl.exe` check —,
no `ShellExecute`, no `tasklist` query and no sleep happen, and the
failed prune is recorded as the logged failure outcome of the run. -/
theorem prune_failure_halts (env : ExtEnv) (st : St)
    (outInfo : Nat → String) (pruneCode : Nat → Nat) (pruneOut pruneErr : Nat → String)
    (hinfo : ∀ k, env.spawnResult k ["docker", "info"] = .completed 0 (outInfo k) "")
    (hcode : ∀ k, pruneCode k ≠ 0)
    (hprune : ∀ k, env.spawnResult k ["powershell", "-Command", prune_cmd_args] =
      .completed (pruneCode k) (pruneOut k) (pruneErr k)) :
    (run_maintenance_tasks env st).res = Except.ok () ∧
    (run_maintenance_tasks env st).trace.filter isSpawnB =
      [Event.spawn ["docker", "info"], Event.spawn ["docker", "ps", "-a", "-q"],
       Event.spawn ["powershell", "-Command", prune_cmd_args]] ∧
    (run_maintenance_tasks env st).trace.countP isShellExecB = 0 ∧
    (run_maintenance_tasks env st).trace.countP isShellCmdB = 0 ∧
    (run_maintenance_tasks env st).trace.countP isSleepB = 0 ∧
    Event.log ("Error during maintenance tasks: " ++
        ("Command failed: powershell " ++ prune_cmd_args ++ ". Error: " ++
          pruneErr (st.calls + 1 + 1) ++ " (Stdout: " ++ pruneOut (st.calls + 1 + 1) ++ ")")) ∈
      (run_maintenance_tasks env st).trace := by
  have hbi : buildCmd "docker" "info" = ["docker", "info"] := by decide
  have hbp : buildCmd "powershell" prune_cmd_args =
      ["powershell", "-Command", prune_cmd_args] := by decide
  cases hps : env.spawnResult (st.calls + 1) ["docker", "ps", "-a", "-q"] with
  | completed code out errout =>
    simp [run_maintenance_tasks, maintenanceSteps, pruneAndLater, check_docker_running,
      get_docker_container_count, run_command, bind_def, mBind, tryPy, emit, subprocessRun,
      throwPy, pure_def, mPure, hbi, hbp, hinfo, hprune, hcode, hps,
      isSpawnB, isShellExecB, isShellCmdB, isSleepB, pyMsg]
  | timedOut =>
    simp [run_maintenance_tasks, maintenanceSteps, pruneAndLater, check_docker_running,
      get_docker_container_count, run_command, bind_def, mBind, tryPy, emit, subprocessRun,
      throwPy, pure_def, mPure, hbi, hbp, hinfo, hprune, hcode, hps,
      isSpawnB, isShellExecB, isShellCmdB, isSleepB, pyMsg]
  | launchFailed msg =>
    simp [run_maintenance_tasks, maintenanceSteps, pruneAndLater, check_docker_running,
      get_docker_container_count, run_command, bind_def, mBind, tryPy, emit, subprocessRun,
      throwPy, pure_def, mPure, hbi, hbp, hinfo, hprune, hcode, hps,
      isSpawnB, isShellExecB, isShellCmdB, isSleepB, pyMsg]

/-- C2 witness: in the concrete prune-failure world the run spawns
exactly the check, the count and the failed prune. -/
theorem prune_failure_halts_witness :
    (run_maintenance_tasks pruneFailEnv st0).res = Except.ok () ∧
    (run_maintenance_tasks pruneFailEnv st0).trace.filter isSpawnB =
      [Event.spawn ["docker", "info"], Event.spawn ["docker", "ps", "-a", "-q"],
       Event.spawn ["powershell", "-Command", prune_cmd_args]] ∧
    (run_maintenance_tasks pruneFailEnv st0).trace.countP isShellExecB = 0 := by
  have h := prune_failure_halts pruneFailEnv st0 (fun _ => "info out") (fun _ => 1)
    (fun _ => "") (fun _ => "prune boom") (fun _ => rfl)
    (fun _ => (by decide : (1 : Nat) ≠ 0)) (fun _ => rfl)
  exact ⟨h.1, h.2.1, h.2.2.1⟩

/-! ### Scheduler lemmas -/

theorem takeWhile_append_all {α : Type} {p : α → Bool} (l1 l2 : List α)
    (h : ∀ e ∈ l1, p e = true) : (l1 ++ l2).takeWhile p = l1 ++ l2.takeWhile p := by
  induction l1 with
  | nil => simp
  | cons a l ih =>
    have ha : p a = true := h a (List.mem_cons_self a l)
    simp [List.takeWhile, ha]
    exact ih (fun e he => h e (List.mem_cons_of_mem a he))

theorem countP_takeWhile_append {α : Type} (p q : α → Bool) (l1 l2 : List α)
    (h1 : (l1.takeWhile q).countP p = 0) (h2 : (l2.takeWhile q).countP p = 0) :
    ((l1 ++ l2).takeWhile q).countP p = 0 := by
  induction l1 with
  | nil => simpa using h2
  | cons a l ih =>
    by_cases hq : q a
    · simp only [List.cons_append, List.takeWhile_cons, hq, if_true, List.countP_cons] at h1 ⊢
      have hpa : (if p a = true then 1 else 0) = 0 := by omega
      have hl : (l.takeWhile q).countP p = 0 := by omega
      rw [ih hl]
      omega
    · simp [List.takeWhile_cons, hq]

/-- No iteration of the scheduler loop starts a maintenance pass before
its `WaitForSingleObject` wait. -/
theorem svcLoop_prefix_no_maint (env : Env) (fuel : Nat) :
    ∀ iter r ev st,
    ((svcLoop env fuel iter r ev st).trace.takeWhile (fun e => !(isWaitB e))).countP isMaintB = 0 := by
  intro iter r ev st
  cases fuel with
  | zero => simp [svcLoop]
  | succ n =>
    unfold svcLoop
    dsimp only []
    repeat' split
    all_goals
      simp [List.takeWhile, isWaitB, isMaintB, List.countP_cons]

/-- The scheduler loop itself always returns normally. -/
theorem svcLoop_ok (env : Env) (fuel : Nat) :
    ∀ iter r ev st, (svcLoop env fuel iter r ev st).res = Except.ok () := by
  induction fuel with
  | zero => intro iter r ev st; simp [svcLoop]
  | succ n ih =>
    intro iter r ev st
    have hok : ∀ s, (run_maintenance_tasks env.ext s).res = Except.ok () :=
      fun s => (run_maintenance_tasks_spec env.ext s).1
    unfold svcLoop
    dsimp only []
    repeat' split
    all_goals first
      | rfl
      | exact ih _ _ _ _
      | simp_all [hok]

theorem svcMainModel_ok (fuel : Nat) (env : Env) (st : St) :
    (svcMainModel fuel env st).res = Except.ok () := by
  unfold svcMainModel
  dsimp only []
  split
  · rfl
  · rename_i e heq
    rw [svcLoop_ok env fuel 0 true false st] at heq
    cases heq

theorem svcMainModel_trace (fuel : Nat) (env : Env) (st : St) :
    (svcMainModel fuel env st).trace =
      (svcLoop env fuel 0 true false st).trace ++
        [Event.log "DEBUG: Service main loop exited; stopping service."] := by
  unfold svcMainModel
  dsimp only []
  split
  · rfl
  · rename_i e heq
    rw [svcLoop_ok env fuel 0 true false st] at heq
    cases heq

/-- C7: in every `SvcDoRun` trace, exactly one maintenance pass starts
before the first scheduler wait: the immediate run is neither skipped
nor doubled, and no loop run precedes the first wait. -/
theorem immediate_run_before_wait (env : Env) (st : St) (fuel : Nat) :
    ((svcDoRunModel fuel env st).trace.takeWhile (fun e => !(isWaitB e))).countP isMaintB = 1 := by
  have hr := run_maintenance_tasks_spec env.ext st
  unfold svcDoRunModel
  dsimp only []
  cases ho : run_maintenance_tasks env.ext st with
  | mk res1 st1 t1 =>
    have hres1 : res1 = Except.ok () := by
      have := hr.1
      rw [ho] at this
      exact this
    subst hres1
    have ht1w : ∀ e ∈ t1, (fun e => !(isWaitB e)) e = true := by
      intro e he
      have h0 := hr.2.2
      rw [ho] at h0
      simp only [nWait] at h0
      have := List.countP_eq_zero.mp h0 e he
      simpa using this
    have ht1m : t1.countP isMaintB = 1 := by
      have h0 := hr.2.1
      rw [ho] at h0
      simpa [nMaint] using h0
    cases ho2 : svcMainModel fuel env st1 with
    | mk res2 st2 t2 =>
      have hres2 : res2 = Except.ok () := by
        have := svcMainModel_ok fuel env st1
        rw [ho2] at this
        exact this
      subst hres2
      have ht2 : (t2.takeWhile (fun e => !(isWaitB e))).countP isMaintB = 0 := by
        have hloop := svcLoop_prefix_no_maint env fuel 0 true false st1
        have heq := svcMainModel_trace fuel env st1
        rw [ho2] at heq
        simp only at heq
        rw [heq]
        exact countP_takeWhile_append _ _ _ _ hloop
          (by simp [List.takeWhile, isWaitB, isMaintB])
      dsimp only []
      rw [takeWhile_append_all _ t2]
      · rw [List.countP_append]
        rw [ht2]
        rw [List.countP_append]
        rw [ht1m]
        simp [isMaintB]
      · intro e he
        rcases List.mem_append.mp he with h | h
        · fin_cases h <;> simp [isWaitB]
        · exact ht1w e h

/-- The loop with `is_running` already false performs no wait and starts
no run. -/
theorem svcLoop_stopped (env : Env) (fuel iter : Nat) (ev : Bool) (st : St) :
    nMaint (svcLoop env fuel iter false ev st).trace = 0 ∧
    nWait (svcLoop env fuel iter false ev st).trace = 0 := by
  cases fuel with
  | zero => simp [svcLoop, nMaint, nWait]
  | succ n =>
    unfold svcLoop
    dsimp only []
    by_cases h0 : (env.stop == some (iter, StopPoint.beforeCheck)) = true <;>
      simp [h0, nMaint, nWait, isMaintB, isWaitB]

/-- Run and wait counts of the scheduler loop when the single stop
signal arrives in iteration `iter + i`, during the wait or during the
run of that iteration. -/
theorem svcLoop_counts (env : Env) :
    ∀ (i fuel iter : Nat) (st : St), i < fuel →
    (env.stop = some (iter + i, StopPoint.duringWait) →
       nMaint (svcLoop env fuel iter true false st).trace = i ∧
       nWait (svcLoop env fuel iter true false st).trace = i + 1) ∧
    (env.stop = some (iter + i, StopPoint.duringRun) →
       nMaint (svcLoop env fuel iter true false st).trace = i + 1 ∧
       nWait (svcLoop env fuel iter true false st).trace = i + 1) := by
  intro i
  induction i with
  | zero =>
    intro fuel iter st hf
    cases fuel with
    | zero => omega
    | succ n =>
      constructor
      · intro hstop
        have h0 : (env.stop == some (iter, StopPoint.beforeCheck)) = false := by
          rw [beq_eq_false_iff_ne, hstop]
          simp
        have hw : (env.stop == some (iter, StopPoint.duringWait)) = true := by
          rw [beq_iff_eq, hstop]
          simp
        unfold svcLoop
        dsimp only []
        simp [h0, hw, nMaint, nWait, isMaintB, isWaitB]
      · intro hstop
        have h0 : (env.stop == some (iter, StopPoint.beforeCheck)) = false := by
          rw [beq_eq_false_iff_ne, hstop]
          simp
        have hw : (env.stop == some (iter, StopPoint.duringWait)) = false := by
          rw [beq_eq_false_iff_ne, hstop]
          simp
        have hr : (env.stop == some (iter, StopPoint.duringRun)) = true := by
          rw [beq_iff_eq, hstop]
          simp
        have hspec := run_maintenance_tasks_spec env.ext
          { st with clock := st.clock + waitSecondsOf st.clock }
        have hstopped := svcLoop_stopped env n (iter + 1) true
          (run_maintenance_tasks env.ext { st with clock := st.clock + waitSecondsOf st.clock }).st
        unfold svcLoop
        dsimp only []
        simp only [h0, hw, hr, Bool.not_false, Bool.and_true, Bool.not_true, Bool.and_false,
          Bool.or_false, Bool.or_true, Bool.false_or, if_false, if_true, Bool.not_eq_true]
        simp only [nMaint, nWait] at hspec hstopped ⊢
        simp [hspec.1, hspec.2.1, hspec.2.2, hstopped.1, hstopped.2,
          List.countP_append, List.countP_cons, isMaintB, isWaitB]
  | succ i ih =>
    intro fuel iter st hf
    cases fuel with
    | zero => omega
    | succ n =>
      have h0 : ∀ pt, env.stop = some (iter + (i + 1), pt) →
          (env.stop == some (iter, StopPoint.beforeCheck)) = false := by
        intro pt hstop
        rw [beq_eq_false_iff_ne, hstop]
        intro hc
        injection hc with hc1
        have : iter + (i + 1) = iter := congrArg Prod.fst hc1
        omega
      have hw : ∀ pt, env.stop = some (iter + (i + 1), pt) →
          (env.stop == some (iter, StopPoint.duringWait)) = false := by
        intro pt hstop
        rw [beq_eq_false_iff_ne, hstop]
        intro hc
        injection hc with hc1
        have : iter + (i + 1) = iter := congrArg Prod.fst hc1
        omega
      have hr : ∀ pt, env.stop = some (iter + (i + 1), pt) →
          (env.stop == some (iter, StopPoint.duringRun)) = false := by
        intro pt hstop
        rw [beq_eq_false_iff_ne, hstop]
        intro hc
        injection hc with hc1
        have : iter + (i + 1) = iter := congrArg Prod.fst hc1
        omega
      have hspec := run_maintenance_tasks_spec env.ext
        { st with clock := st.clock + waitSecondsOf st.clock }
      constructor
      · intro hstop
        have hstop' : env.stop = some ((iter + 1) + i, StopPoint.duringWait) := by
          rw [hstop]
          congr 2
          omega
        have hih := ((ih n (iter + 1)
          (run_maintenance_tasks env.ext { st with clock := st.clock + waitSecondsOf st.clock }).st
          (by omega)).1 hstop')
        unfold svcLoop
        dsimp only []
        simp only [h0 _ hstop, hw _ hstop, hr _ hstop, Bool.not_false, Bool.and_true,
          Bool.or_false, if_false, if_true, Bool.not_eq_true]
        simp only [nMaint, nWait] at hspec hih ⊢
        simp [hspec.1, hspec.2.1, hspec.2.2, hih.1, hih.2,
          List.countP_append, List.countP_cons, isMaintB, isWaitB]
        omega
      · intro hstop
        have hstop' : env.stop = some ((iter + 1) + i, StopPoint.duringRun) := by
          rw [hstop]
          congr 2
          omega
        have hih := ((ih n (iter + 1)
          (run_maintenance_tasks env.ext { st with clock := st.clock + waitSecondsOf st.clock }).st
          (by omega)).2 hstop')
        unfold svcLoop
        dsimp only []
        simp only [h0 _ hstop, hw _ hstop, hr _ hstop, Bool.not_false, Bool.and_true,
          Bool.or_false, if_false, if_true, Bool.not_eq_true]
        simp only [nMaint, nWait] at hspec hih ⊢
        simp [hspec.1, hspec.2.1, hspec.2.2, hih.1, hih.2,
          List.countP_append, List.countP_cons, isMaintB, isWaitB]
        omega

/-- C4: a stop signal delivered while the scheduler is in the wait of
iteration `i` makes the loop exit without starting another run (`i`
completed runs, `i + 1` waits); a stop signal delivered while the run of
iteration `i` is in progress never aborts that run — the pipeline is a
function of the external world only, unchanged by the stop state (third
conjunct), so the run completes — and no subsequent run starts
(`i + 1` runs and `i + 1` waits in total). -/
theorem stop_signal_semantics (envW envR : Env) (st : St) (i fuel : Nat)
    (hfuel : i < fuel)
    (hW : envW.stop = some (i, StopPoint.duringWait))
    (hR : envR.stop = some (i, StopPoint.duringRun)) :
    (nMaint (svcMainModel fuel envW st).trace = i ∧
     nWait (svcMainModel fuel envW st).trace = i + 1) ∧
    (nMaint (svcMainModel fuel envR st).trace = i + 1 ∧
     nWait (svcMainModel fuel envR st).trace = i + 1) ∧
    (∀ (ext : ExtEnv) (s1 s2 : Option (Nat × StopPoint)) (st1 : St),
      run_maintenance_tasks (Env.mk ext s1).ext st1 =
        run_maintenance_tasks (Env.mk ext s2).ext st1) := by
  have hW' : envW.stop = some (0 + i, StopPoint.duringWait) := by simpa using hW
  have hR' : envR.stop = some (0 + i, StopPoint.duringRun) := by simpa using hR
  have hcw := (svcLoop_counts envW i fuel 0 st hfuel).1 hW'
  have hcr := (svcLoop_counts envR i fuel 0 st hfuel).2 hR'
  refine ⟨?_, ?_, fun ext s1 s2 st1 => rfl⟩
  · rw [svcMainModel_trace] at *
    constructor
    · simp only [nMaint, List.countP_append] at hcw ⊢
      simp [isMaintB, hcw.1]
    · simp only [nWait, List.countP_append] at hcw ⊢
      simp [isWaitB, hcw.2]
  · rw [svcMainModel_trace] at *
    constructor
    · simp only [nMaint, List.countP_append] at hcr ⊢
      simp [isMaintB, hcr.1]
    · simp only [nWait, List.countP_append] at hcr ⊢
      simp [isWaitB, hcr.2]

/-- C4 witness: stop during the wait of iteration 1 gives 1 run and 2
waits; stop during the run of iteration 1 gives 2 runs and 2 waits. -/
theorem stop_signal_semantics_witness :
    (nMaint (svcMainModel 3 ⟨pruneFailEnv, some (1, StopPoint.duringWait)⟩ st0).trace = 1 ∧
     nWait (svcMainModel 3 ⟨pruneFailEnv, some (1, StopPoint.duringWait)⟩ st0).trace = 2) ∧
    (nMaint (svcMainModel 3 ⟨pruneFailEnv, some (1, StopPoint.duringRun)⟩ st0).trace = 2 ∧
     nWait (svcMainModel 3 ⟨pruneFailEnv, some (1, StopPoint.duringRun)⟩ st0).trace = 2) := by
  have h := stop_signal_semantics ⟨pruneFailEnv, some (1, StopPoint.duringWait)⟩
    ⟨pruneFailEnv, some (1, StopPoint.duringRun)⟩ st0 1 3 (by omega) rfl rfl
  exact ⟨h.1, h.2.1⟩

end DockerSvc
